import Mathlib

/-!
Verification of the DEADNOTE personal-growth-diary server (Express/SQLite).

This file shallowly embeds the server's data model and request handlers in
Lean 4 and proves/refutes the specified properties about them.

Modelling conventions:
* SQL tables become Lean lists of row structures; `DB` bundles the tables
  together with the auto-increment counters that `lastInsertRowid` exposes.
* Calendar dates (`DATE` columns, `toISOString().split('T')[0]` strings)
  become integers counting days, so "the day before `d`" is `d - 1`.
  SQLite's `strftime`-based year filter of the heatmap route is abstracted
  as a boolean predicate on days.
* Each HTTP handler becomes a function from the request data (and the
  session user id) to a response together with the updated database.  The
  `try/catch` blocks of the handlers are modelled by a `dbFail` oracle
  where a claim is about the 500 branch.
* `Math.random()` draws become explicit rational parameters in `[0,1)`,
  and wall-clock reads (`new Date()`) become explicit parameters.
-/

/-- A row of `journal_entries` (database/schema.sql). -/
structure JournalEntry where
  id : Nat
  user_id : Nat
  title : Option String
  content : String
  mood : Option String
  mood_note : Option String
  entry_date : Int
deriving Repr, DecidableEq

/-- A row of `todos` (database/schema.sql). -/
structure Todo where
  id : Nat
  user_id : Nat
  title : String
  description : Option String
  priority : String
  scheduled_date : Int
  is_completed : Bool
  completed_at : Option Int
deriving Repr, DecidableEq

/-- A row of `goals` (database/schema.sql). -/
structure Goal where
  id : Nat
  user_id : Nat
  title : String
  description : Option String
  goal_type : String
  target_date : Option Int
  progress : Nat
  status : String
deriving Repr, DecidableEq

/-- A row of `goal_milestones` (database/schema.sql). -/
structure Milestone where
  id : Nat
  goal_id : Nat
  title : String
  is_completed : Bool
  completed_at : Option Int
deriving Repr, DecidableEq

/-- A row of `activity_log` (database/schema.sql). -/
structure ActivityRow where
  user_id : Nat
  activity_type : String
  activity_date : Int
  details : String
deriving Repr, DecidableEq

/-- A row of `users` (database/schema.sql). -/
structure User where
  id : Nat
  username : String
deriving Repr, DecidableEq

/-- A row of `notification_settings` (database/schema.sql). -/
structure NotificationSettings where
  user_id : Nat
  reminder_enabled : Bool
  motivation_enabled : Bool
  pending_threshold : Nat
deriving Repr, DecidableEq

/-- The SQLite database: one list per table, plus the auto-increment
counters behind `lastInsertRowid`. -/
structure DB where
  users : List User
  journal_entries : List JournalEntry
  goals : List Goal
  goal_milestones : List Milestone
  todos : List Todo
  activity_log : List ActivityRow
  notification_settings : List NotificationSettings
  next_journal_id : Nat
  next_goal_id : Nat
  next_milestone_id : Nat
deriving Repr, DecidableEq

/-- The uniform error taxonomy of the handlers (spec section 7):
400 validation, 401 unauthenticated, 404 not found, 500 unexpected. -/
inductive ApiError where
  | validation (msgs : List String)
  | unauthorized
  | notFound (msg : String)
  | server (msg : String)
deriving Repr, DecidableEq

/-- HTTP status code of each `ApiError`. -/
def ApiError.status : ApiError → Nat
  | .validation _ => 400
  | .unauthorized => 401
  | .notFound _ => 404
  | .server _ => 500

/-! ## Journal routes (routes/journal.js) -/

/-- Whitespace characters removed by JS `String.trim`. -/
def isWsChar (c : Char) : Bool := c == ' ' || c == '\t' || c == '\n' || c == '\r'

/-- JS `String.trim`: drop whitespace from both ends. -/
def trimStr (s : String) : String :=
  String.mk (((s.data.dropWhile isWsChar).reverse.dropWhile isWsChar).reverse)

/-- The five allowed moods (schema CHECK constraint and route validator). -/
def moodValues : List String := ["amazing", "good", "neutral", "bad", "terrible"]

/-- Validator chain of `POST /api/journal` and `PUT /api/journal/:id`:
`title` optional, trimmed, at most 200 characters; `content` non-empty;
`mood` optional, one of the five values.  Returns the field-level error
messages (express-validator's default message is "Invalid value"). -/
def validateJournal (title : Option String) (content : String)
    (mood : Option String) : List String :=
  (match title with
   | some t => if (trimStr t).length > 200 then ["Invalid value"] else []
   | none => []) ++
  (if content = "" then ["Content is required"] else []) ++
  (match mood with
   | some m => if moodValues.contains m then [] else ["Invalid value"]
   | none => [])

/-- JS `x || y` for optional strings: the empty string is falsy. -/
def orElseStr (s : Option String) (dflt : Option String) : Option String :=
  match s with
  | some t => if t = "" then dflt else some t
  | none => dflt

/-- Handler of `POST /api/journal` (journal.js "Create new entry"):
validate, insert the entry (entry date defaults to today), then insert a
`journal` row into `activity_log` (whose `activity_date` defaults to
`date('now')`, i.e. today, NOT the entry date).  Returns the new row id. -/
def createJournalEntry (db : DB) (u : Nat) (title : Option String)
    (content : String) (mood mood_note : Option String)
    (entry_date : Option Int) (today : Int) : Except ApiError Nat × DB :=
  let errs := validateJournal title content mood
  if errs ≠ [] then (.error (.validation errs), db)
  else
    let id := db.next_journal_id
    let e : JournalEntry :=
      { id := id, user_id := u, title := orElseStr title none,
        content := content, mood := orElseStr mood none,
        mood_note := orElseStr mood_note none,
        entry_date := entry_date.getD today }
    let titleShown := (orElseStr title none).getD "Untitled"
    let logRow : ActivityRow :=
      { user_id := u, activity_type := "journal", activity_date := today,
        details := "Created journal entry: " ++ titleShown }
    (.ok id,
      { db with journal_entries := db.journal_entries ++ [e],
                activity_log := db.activity_log ++ [logRow],
                next_journal_id := id + 1 })

/-- Does the second character list start with the first? -/
def charsStartWith : List Char → List Char → Bool
  | [], _ => true
  | _ :: _, [] => false
  | p :: ps, c :: cs => p == c && charsStartWith ps cs

/-- Does the second character list contain the first as a contiguous run? -/
def charsContain (pat : List Char) : List Char → Bool
  | [] => charsStartWith pat []
  | c :: cs => charsStartWith pat (c :: cs) || charsContain pat cs

/-- Substring test, used to model SQL `LIKE ?` with a `%s%` pattern and
JS `String.includes`. -/
def substrIn (pat s : String) : Bool := charsContain pat.data s.data

/-- Handler of `GET /api/journal` (journal.js "Get all journal entries"):
the user's entries, optionally filtered by date range, mood, and a search
over title and content.  (The `ORDER BY`/image aggregation of the route do
not affect which entries are listed and are not modelled.) -/
def listJournal (db : DB) (u : Nat) (startDate endDate : Option Int)
    (mood search : Option String) : List JournalEntry :=
  db.journal_entries.filter (fun j =>
    j.user_id == u
    && (match startDate with | some d => j.entry_date ≥ d | none => true)
    && (match endDate with | some d => j.entry_date ≤ d | none => true)
    && (match mood with | some m => j.mood == some m | none => true)
    && (match search with
        | some s => substrIn s (j.title.getD "") || substrIn s j.content
        | none => true))

/-- Handler of `GET /api/journal/:id` (journal.js "Get single entry"):
look the entry up by id AND session user; 404 when absent. -/
def getJournalEntry (db : DB) (u id : Nat) : Except ApiError JournalEntry :=
  match db.journal_entries.find? (fun e => e.id == id && e.user_id == u) with
  | none => .error (.notFound "Entry not found")
  | some e => .ok e

/-- Handler of `PUT /api/journal/:id` (journal.js "Update entry"):
validate, check ownership (404), then overwrite every field. -/
def updateJournalEntry (db : DB) (u id : Nat) (title : Option String)
    (content : String) (mood mood_note : Option String)
    (entry_date : Int) : Except ApiError Unit × DB :=
  let errs := validateJournal title content mood
  if errs ≠ [] then (.error (.validation errs), db)
  else
    match db.journal_entries.find? (fun e => e.id == id && e.user_id == u) with
    | none => (.error (.notFound "Entry not found"), db)
    | some _ =>
      (.ok (),
        { db with journal_entries := db.journal_entries.map (fun e =>
            if e.id == id then
              { e with title := orElseStr title none, content := content,
                       mood := orElseStr mood none,
                       mood_note := orElseStr mood_note none,
                       entry_date := entry_date }
            else e) })

/-- Handler of `DELETE /api/journal/:id` (journal.js "Delete entry"):
`DELETE ... WHERE id = ? AND user_id = ?`; 404 when zero rows changed. -/
def deleteJournalEntry (db : DB) (u id : Nat) : Except ApiError Unit × DB :=
  let remaining := db.journal_entries.filter (fun e =>
    !(e.id == id && e.user_id == u))
  if remaining.length == db.journal_entries.length then
    (.error (.notFound "Entry not found"), db)
  else
    (.ok (), { db with journal_entries := remaining })

/-! ## Todo routes (routes/todos.js) -/

/-- Look a todo up by id and owner, as `PUT /:id` and `PATCH /:id/toggle` do. -/
def findTodo (db : DB) (u id : Nat) : Option Todo :=
  db.todos.find? (fun t => t.id == id && t.user_id == u)

/-- Handler of `PATCH /api/todos/:id/toggle` (todos.js): ownership check
(404), flip `is_completed`, set/clear `completed_at`, and append a
`todo_completed` row to `activity_log` when (and only when) the todo was
just completed.  `now` is the completion timestamp's day, `today` the day
`activity_log.activity_date` defaults to. -/
def toggleTodo (db : DB) (u id : Nat) (now today : Int) :
    Except ApiError Bool × DB :=
  match findTodo db u id with
  | none => (.error (.notFound "Todo not found"), db)
  | some t =>
    let ns := !t.is_completed
    let todos' := db.todos.map (fun x =>
      if x.id == id then
        { x with is_completed := ns,
                 completed_at := if ns then some now else none }
      else x)
    let log' :=
      if ns then
        db.activity_log ++
          [{ user_id := u, activity_type := "todo_completed",
             activity_date := today, details := "Completed: " ++ t.title }]
      else db.activity_log
    (.ok ns, { db with todos := todos', activity_log := log' })

/-- Handler of `DELETE /api/todos/:id` (todos.js): delete by id and owner,
404 when zero rows changed. -/
def deleteTodo (db : DB) (u id : Nat) : Except ApiError Unit × DB :=
  let remaining := db.todos.filter (fun t => !(t.id == id && t.user_id == u))
  if remaining.length == db.todos.length then
    (.error (.notFound "Todo not found"), db)
  else
    (.ok (), { db with todos := remaining })

/-- Handler of `PUT /api/todos/:id` (todos.js "Update todo"): ownership
check (404), then update only the provided fields. -/
def updateTodo (db : DB) (u id : Nat) (title description priority : Option String)
    (scheduled_date : Option Int) : Except ApiError Unit × DB :=
  match findTodo db u id with
  | none => (.error (.notFound "Todo not found"), db)
  | some _ =>
    (.ok (),
      { db with todos := db.todos.map (fun t =>
          if t.id == id then
            { t with title := title.getD t.title,
                     description := match description with
                       | some d => some d | none => t.description,
                     priority := priority.getD t.priority,
                     scheduled_date := scheduled_date.getD t.scheduled_date }
          else t) })

/-- Handler of `POST /api/todos/bulk-complete` (todos.js): 400 on an empty
id list, otherwise mark the session user's listed todos completed.  Always
responds 200 afterwards, even when no row matched. -/
def bulkComplete (db : DB) (u : Nat) (ids : List Nat) (now : Int) :
    Except ApiError Unit × DB :=
  if ids = [] then (.error (.validation ["Invalid todo IDs"]), db)
  else
    (.ok (),
      { db with todos := db.todos.map (fun t =>
          if ids.contains t.id && t.user_id == u then
            { t with is_completed := true, completed_at := some now }
          else t) })

/-- Handler of `POST /api/todos/reschedule-overdue` (todos.js): move the
session user's overdue incomplete todos to `newDate`; responds 200. -/
def rescheduleOverdue (db : DB) (u : Nat) (newDate today : Int) :
    Except ApiError Unit × DB :=
  (.ok (),
    { db with todos := db.todos.map (fun t =>
        if t.user_id == u && t.scheduled_date < today && !t.is_completed then
          { t with scheduled_date := newDate }
        else t) })

/-! ## Goal routes (routes/goals.js) -/

/-- JS `Math.round((completed / total) * 100)` on the nonnegative counts the
milestone-toggle handler feeds it, computed in integer arithmetic:
`(200 * c + t) / (2 * t)` is the floor of `c / t * 100 + 1 / 2`. -/
def roundPct (c t : Nat) : Nat := (200 * c + t) / (2 * t)

/-- Rounding half up on the rationals, as JS `Math.round` does for the
nonnegative values arising here. -/
def jsRound (q : ℚ) : ℤ := ⌊q + 1 / 2⌋

/-- Number of milestones of goal `gid` (the toggle handler's
`COUNT(*) ... WHERE goal_id = ?`). -/
def totalMilestones (db : DB) (gid : Nat) : Nat :=
  (db.goal_milestones.filter (fun m => m.goal_id == gid)).length

/-- Number of completed milestones of goal `gid` (the toggle handler's
`SUM(is_completed) ... WHERE goal_id = ?`). -/
def completedMilestones (db : DB) (gid : Nat) : Nat :=
  (db.goal_milestones.filter (fun m => m.goal_id == gid && m.is_completed)).length

/-- The `requireAuth` middleware (server.js): pass the session's user id
through, or stop the request with 401 when there is no session user. -/
def requireAuthGate (session : Option Nat) : Except ApiError Nat :=
  match session with
  | some u => .ok u
  | none => .error .unauthorized

/-- Handler of `GET /api/goals/:id` (goals.js "Get single goal") behind
`requireAuth`: look the goal up by id and session user (404), then fetch
its milestones.  `dbFail` models the `catch` branch: any thrown database
error yields a generic 500. -/
def apiGetGoal (session : Option Nat) (dbFail : Bool) (db : DB) (id : Nat) :
    Except ApiError (Goal × List Milestone) :=
  match requireAuthGate session with
  | .error e => .error e
  | .ok u =>
    if dbFail then .error (.server "Failed to fetch goal")
    else
      match db.goals.find? (fun g => g.id == id && g.user_id == u) with
      | none => .error (.notFound "Goal not found")
      | some g => .ok (g, db.goal_milestones.filter (fun m => m.goal_id == g.id))

/-- Validator chain of `POST /api/goals`: non-empty trimmed `title`
("Title is required"), `goal_type` in the two-value enum ("Invalid goal
type"). -/
def validateCreateGoal (title goal_type : String) : List String :=
  (if trimStr title = "" then ["Title is required"] else []) ++
  (if goal_type = "short-term" ∨ goal_type = "long-term" then []
   else ["Invalid goal type"])

/-- Handler of `POST /api/goals` (goals.js "Create goal"), behind the
`requireAuth` middleware: 401 without a session, 400 on validation errors,
500 when the database throws, otherwise insert the goal and the
non-blank-titled milestones and return the new goal id. -/
def apiCreateGoal (session : Option Nat) (dbFail : Bool) (db : DB)
    (title : String) (description : Option String) (goal_type : String)
    (target_date : Option Int) (milestones : List String) :
    Except ApiError Nat × DB :=
  match requireAuthGate session with
  | .error e => (.error e, db)
  | .ok u =>
    let errs := validateCreateGoal title goal_type
    if errs ≠ [] then (.error (.validation errs), db)
    else if dbFail then (.error (.server "Failed to create goal"), db)
    else
      let gid := db.next_goal_id
      let g : Goal :=
        { id := gid, user_id := u, title := title,
          description := orElseStr description none, goal_type := goal_type,
          target_date := target_date, progress := 0, status := "active" }
      let kept := (milestones.filter (fun m => trimStr m ≠ "")).map trimStr
      let newMs := (List.range kept.length).zip kept |>.map (fun p =>
        { id := db.next_milestone_id + p.1, goal_id := gid, title := p.2,
          is_completed := false, completed_at := none : Milestone })
      (.ok gid,
        { db with goals := db.goals ++ [g],
                  goal_milestones := db.goal_milestones ++ newMs,
                  next_goal_id := gid + 1,
                  next_milestone_id := db.next_milestone_id + kept.length })

/-- Handler of `PATCH /api/goals/:goalId/milestones/:milestoneId/toggle`
(goals.js "Toggle milestone completion"): ownership check through the join
with `goals` (404), flip the milestone, then recompute the progress of the
goal named by the `:goalId` URL parameter from its milestone counts and
store `Math.round(completed / total * 100)` when the goal has milestones. -/
def toggleMilestone (db : DB) (u goalId milestoneId : Nat) (now : Int) :
    Except ApiError Bool × DB :=
  match db.goal_milestones.find? (fun m =>
      m.id == milestoneId &&
      db.goals.any (fun g => g.id == m.goal_id && g.user_id == u)) with
  | none => (.error (.notFound "Milestone not found"), db)
  | some m =>
    let ns := !m.is_completed
    let ms' := db.goal_milestones.map (fun x =>
      if x.id == milestoneId then
        { x with is_completed := ns,
                 completed_at := if ns then some now else none }
      else x)
    let db' := { db with goal_milestones := ms' }
    let total := totalMilestones db' goalId
    let completed := completedMilestones db' goalId
    let db'' :=
      if total > 0 then
        { db' with goals := db'.goals.map (fun g =>
            if g.id == goalId then { g with progress := roundPct completed total }
            else g) }
      else db'
    (.ok ns, db'')

/-- Handler of `DELETE /api/goals/:goalId/milestones/:milestoneId`
(goals.js "Delete milestone"): delete the milestone when it belongs to one
of the session user's goals, 404 otherwise.  The handler does NOT touch the
parent goal's stored progress. -/
def deleteMilestone (db : DB) (u milestoneId : Nat) : Except ApiError Unit × DB :=
  let remaining := db.goal_milestones.filter (fun m =>
    !(m.id == milestoneId &&
      db.goals.any (fun g => g.id == m.goal_id && g.user_id == u)))
  if remaining.length == db.goal_milestones.length then
    (.error (.notFound "Milestone not found"), db)
  else
    (.ok (), { db with goal_milestones := remaining })

/-- Handler of `PUT /api/goals/:id` (goals.js "Update goal"): ownership
check (404), update the provided fields, and log a `goal_progress` activity
row (dated today) when `progress` is provided. -/
def updateGoal (db : DB) (u id : Nat) (title description : Option String)
    (target_date : Option Int) (progress : Option Nat)
    (status : Option String) (today : Int) : Except ApiError Unit × DB :=
  match db.goals.find? (fun g => g.id == id && g.user_id == u) with
  | none => (.error (.notFound "Goal not found"), db)
  | some g =>
    let log' :=
      match progress with
      | some p =>
        db.activity_log ++
          [{ user_id := u, activity_type := "goal_progress",
             activity_date := today,
             details := "Goal \"" ++ g.title ++ "\" progress: " ++ toString p ++ "%" }]
      | none => db.activity_log
    (.ok (),
      { db with activity_log := log',
                goals := db.goals.map (fun x =>
          if x.id == id then
            { x with title := title.getD x.title,
                     description := match description with
                       | some d => some d | none => x.description,
                     target_date := match target_date with
                       | some d => some d | none => x.target_date,
                     progress := progress.getD x.progress,
                     status := status.getD x.status }
          else x) })

/-- Handler of `DELETE /api/goals/:id` (goals.js "Delete goal"): delete by
id and owner, 404 when zero rows changed. -/
def deleteGoal (db : DB) (u id : Nat) : Except ApiError Unit × DB :=
  let remaining := db.goals.filter (fun g => !(g.id == id && g.user_id == u))
  if remaining.length == db.goals.length then
    (.error (.notFound "Goal not found"), db)
  else
    (.ok (), { db with goals := remaining })

/-! ## Stats routes (routes/stats.js) -/

/-- The `UNION` probe of `calculateStreak`: does user `u` have any activity
on day `d`, in any of the three sources — journal entries by `entry_date`,
completed todos by `date(completed_at)`, `activity_log` by `activity_date`? -/
def hasActivity (db : DB) (u : Nat) (d : Int) : Bool :=
  db.journal_entries.any (fun j => j.user_id == u && j.entry_date == d)
  || db.todos.any (fun t =>
       t.user_id == u && t.is_completed && t.completed_at == some d)
  || db.activity_log.any (fun a => a.user_id == u && a.activity_date == d)

/-- The `while (true)` loop of `calculateStreak` (stats.js): walk backward
from `today`; count a day with activity and continue; on the very first
day (today) without activity just step to yesterday; otherwise stop.
`fuel` bounds the recursion (the JS loop terminates because the finite
database runs out of consecutive active days). -/
def streakLoop (db : DB) (u : Nat) (today current : Int) (acc fuel : Nat) : Nat :=
  match fuel with
  | 0 => acc
  | fuel' + 1 =>
    if hasActivity db u current then
      streakLoop db u today (current - 1) (acc + 1) fuel'
    else if current = today then
      streakLoop db u today (current - 1) acc fuel'
    else acc

/-- `calculateStreak(db, userId)` of stats.js, with the wall clock and the
loop fuel made explicit. -/
def calculateStreak (db : DB) (u : Nat) (today : Int) (fuel : Nat) : Nat :=
  streakLoop db u today today 0 fuel

/-- Journal entries of user `u` dated day `d`. -/
def journalCountOn (db : DB) (u : Nat) (d : Int) : Nat :=
  (db.journal_entries.filter (fun j => j.user_id == u && j.entry_date == d)).length

/-- Completed todos of user `u` whose completion day is `d`. -/
def todoCompletedCountOn (db : DB) (u : Nat) (d : Int) : Nat :=
  (db.todos.filter (fun t =>
    t.user_id == u && t.is_completed && t.completed_at == some d)).length

/-- `activity_log` rows of user `u` dated day `d`. -/
def activityCountOn (db : DB) (u : Nat) (d : Int) : Nat :=
  (db.activity_log.filter (fun a => a.user_id == u && a.activity_date == d)).length

/-- `GROUP BY` a list of dates: one `(date, COUNT(*))` pair per distinct
date, modelling the three grouped queries of `GET /api/stats/heatmap`. -/
def groupCounts (dates : List Int) : List (Int × Nat) :=
  dates.dedup.map (fun d => (d, (dates.filter (fun x => x == d)).length))

/-- The heatmap merge step, `heatmapData[date] = (heatmapData[date] || 0)
+ count` on a JS object modelled as an association list: add to the
existing key or append a new one. -/
def bumpDate : List (Int × Nat) → Int → Nat → List (Int × Nat)
  | [], d, c => [(d, c)]
  | p :: rest, d, c =>
    if p.1 = d then (p.1, p.2 + c) :: rest else p :: bumpDate rest d c

/-- Property lookup on the heatmap object (missing key reads as 0). -/
def hmLookup : List (Int × Nat) → Int → Nat
  | [], _ => 0
  | p :: rest, d => if p.1 = d then p.2 else hmLookup rest d

/-- Dates of user `u`'s `activity_log` rows inside the target year. -/
def activityLogDates (db : DB) (u : Nat) (inYear : Int → Bool) : List Int :=
  (db.activity_log.filter (fun a => a.user_id == u && inYear a.activity_date)).map
    (fun a => a.activity_date)

/-- Completion dates of user `u`'s completed todos inside the target year
(`date(completed_at)`; a NULL `completed_at` matches no year). -/
def completedTodoDates (db : DB) (u : Nat) (inYear : Int → Bool) : List Int :=
  (db.todos.filter (fun t => t.user_id == u && t.is_completed &&
    (match t.completed_at with | some d => inYear d | none => false))).map
    (fun t => t.completed_at.getD 0)

/-- Entry dates of user `u`'s journal entries inside the target year. -/
def journalDates (db : DB) (u : Nat) (inYear : Int → Bool) : List Int :=
  (db.journal_entries.filter (fun j => j.user_id == u && inYear j.entry_date)).map
    (fun j => j.entry_date)

/-- Handler of `GET /api/stats/heatmap` (stats.js): group each of the three
activity sources by date within the target year, then merge the three
grouped lists into one date-indexed object by summing counts.  The SQLite
`strftime('%Y', ...) = year` filter is abstracted as the predicate
`inYear`. -/
def heatmapData (db : DB) (u : Nat) (inYear : Int → Bool) : List (Int × Nat) :=
  (groupCounts (activityLogDates db u inYear)
    ++ groupCounts (completedTodoDates db u inYear)
    ++ groupCounts (journalDates db u inYear)).foldl
      (fun m p => bumpDate m p.1 p.2) []

/-! ## Quotes (utils/quotes.js) and AI fallback (routes/ai.js) -/

/-- The hardcoded motivational quote list of utils/quotes.js, as
(text, author) pairs. -/
def quotes : List (String × String) := [
  ("The secret of getting ahead is getting started.", "Mark Twain"),
  ("It does not matter how slowly you go as long as you do not stop.", "Confucius"),
  ("Success is not final, failure is not fatal: it is the courage to continue that counts.", "Winston Churchill"),
  ("The only way to do great work is to love what you do.", "Steve Jobs"),
  ("Believe you can and you\x27re halfway there.", "Theodore Roosevelt"),
  ("The future belongs to those who believe in the beauty of their dreams.", "Eleanor Roosevelt"),
  ("Don\x27t watch the clock; do what it does. Keep going.", "Sam Levenson"),
  ("Everything you\x27ve ever wanted is on the other side of fear.", "George Addair"),
  ("The only impossible journey is the one you never begin.", "Tony Robbins"),
  ("Start where you are. Use what you have. Do what you can.", "Arthur Ashe"),
  ("Your limitation—it\x27s only your imagination.", "Unknown"),
  ("Push yourself, because no one else is going to do it for you.", "Unknown"),
  ("Great things never come from comfort zones.", "Unknown"),
  ("Dream it. Wish it. Do it.", "Unknown"),
  ("Success doesn\x27t just find you. You have to go out and get it.", "Unknown"),
  ("The harder you work for something, the greater you\x27ll feel when you achieve it.", "Unknown"),
  ("Don\x27t stop when you\x27re tired. Stop when you\x27re done.", "Unknown"),
  ("Wake up with determination. Go to bed with satisfaction.", "Unknown"),
  ("Do something today that your future self will thank you for.", "Sean Patrick Flanery"),
  ("Little things make big days.", "Unknown"),
  ("It\x27s going to be hard, but hard does not mean impossible.", "Unknown"),
  ("Don\x27t wait for opportunity. Create it.", "Unknown"),
  ("Sometimes we\x27re tested not to show our weaknesses, but to discover our strengths.", "Unknown"),
  ("The key to success is to focus on goals, not obstacles.", "Unknown"),
  ("Dream bigger. Do bigger.", "Unknown"),
  ("You don\x27t have to be great to start, but you have to start to be great.", "Zig Ziglar"),
  ("The way to get started is to quit talking and begin doing.", "Walt Disney"),
  ("Don\x27t be afraid to give up the good to go for the great.", "John D. Rockefeller"),
  ("I find that the harder I work, the more luck I seem to have.", "Thomas Jefferson"),
  ("Success usually comes to those who are too busy to be looking for it.", "Henry David Thoreau"),
  ("If you are not willing to risk the usual, you will have to settle for the ordinary.", "Jim Rohn"),
  ("Take up one idea. Make that one idea your life.", "Swami Vivekananda"),
  ("All progress takes place outside the comfort zone.", "Michael John Bobak"),
  ("You miss 100% of the shots you don\x27t take.", "Wayne Gretzky"),
  ("Whether you think you can or think you can\x27t, you\x27re right.", "Henry Ford"),
  ("The only person you are destined to become is the person you decide to be.", "Ralph Waldo Emerson"),
  ("I attribute my success to this: I never gave or took any excuse.", "Florence Nightingale"),
  ("If you really look closely, most overnight successes took a long time.", "Steve Jobs"),
  ("The successful warrior is the average man, with laser-like focus.", "Bruce Lee"),
  ("There are no secrets to success. It is the result of preparation, hard work, and learning from failure.", "Colin Powell"),
  ("Action is the foundational key to all success.", "Pablo Picasso"),
  ("Things work out best for those who make the best of how things work out.", "John Wooden"),
  ("A year from now you may wish you had started today.", "Karen Lamb"),
  ("Small daily improvements over time lead to stunning results.", "Robin Sharma"),
  ("Discipline is the bridge between goals and accomplishment.", "Jim Rohn"),
  ("What you do today can improve all your tomorrows.", "Ralph Marston"),
  ("The difference between ordinary and extraordinary is that little extra.", "Jimmy Johnson"),
  ("Your time is limited, don\x27t waste it living someone else\x27s life.", "Steve Jobs"),
  ("Be so good they can\x27t ignore you.", "Steve Martin"),
  ("The best time to plant a tree was 20 years ago. The second best time is now.", "Chinese Proverb")]

/-- JS `String.toLowerCase`, character by character. -/
def lowerStr (s : String) : String := String.mk (s.data.map Char.toLower)

/-- The time-of-day quote pool of `getMotivationalQuote` (utils/quotes.js):
before noon the quotes containing "start"/"begin"/"today", before 17:00
those containing "keep"/"continu"/"work", in the evening those containing
"success"/"great"/"achieve" (all matched case-insensitively). -/
def quoteCategory (hour : Nat) : List (String × String) :=
  if hour < 12 then
    quotes.filter (fun q => substrIn "start" (lowerStr q.1)
      || substrIn "begin" (lowerStr q.1) || substrIn "today" (lowerStr q.1))
  else if hour < 17 then
    quotes.filter (fun q => substrIn "keep" (lowerStr q.1)
      || substrIn "continu" (lowerStr q.1) || substrIn "work" (lowerStr q.1))
  else
    quotes.filter (fun q => substrIn "success" (lowerStr q.1)
      || substrIn "great" (lowerStr q.1) || substrIn "achieve" (lowerStr q.1))

/-- The index `Math.floor(Math.random() * pool.length)` used by
`getMotivationalQuote()` (utils/quotes.js), with the `Math.random()` draw
`r ∈ [0,1)` explicit. -/
def randIndex (r : ℚ) (n : Nat) : Nat := Int.toNat ⌊r * n⌋

/-- `getMotivationalQuote()` continued: pick the category for the hour
(falling back to the full list when the category is empty), then index it
with the random draw. -/
def getMotivationalQuote (hour : Nat) (r : ℚ) : String × String :=
  let category := quoteCategory hour
  let pool := if category.length > 0 then category else quotes
  pool.getD (randIndex r pool.length) ("", "")

/-! ## Notification poller (utils/notifications.js) -/

/-- A desktop notification as handed to `node-notifier`. -/
structure Notif where
  title : String
  message : String
deriving Repr, DecidableEq

/-- `checkAndNotify(db)` (utils/notifications.js): join `users` with
`notification_settings` keeping reminder-enabled users, and for each such
user count today's pending todos (notify at the threshold) and the overdue
todos (notify when any).  Written state-passing style: the returned
database is the second component. -/
def checkAndNotify (today : Int) (db : DB) : List Notif × DB :=
  let pairs := db.users.flatMap (fun usr =>
    db.notification_settings.filterMap (fun ns =>
      if ns.user_id == usr.id && ns.reminder_enabled then some (usr, ns) else none))
  let notifs := pairs.flatMap (fun p =>
    let pending := (db.todos.filter (fun t =>
      t.user_id == p.1.id && t.scheduled_date == today && !t.is_completed)).length
    let overdue := (db.todos.filter (fun t =>
      t.user_id == p.1.id && t.scheduled_date < today && !t.is_completed)).length
    (if pending ≥ p.2.pending_threshold then
      [{ title := "📋 Tasks Reminder",
         message := "You have " ++ toString pending
           ++ " tasks left for today. Keep going!" : Notif }]
     else []) ++
    (if overdue > 0 then
      [{ title := "⚠️ Overdue Tasks",
         message := "You have " ++ toString overdue
           ++ " overdue tasks. Consider rescheduling them." : Notif }]
     else []))
  (notifs, db)

/-- `sendMotivationalNotification(db)` (utils/notifications.js): query the
motivation-enabled users and, when any exist, send one quote notification.
State-passing like `checkAndNotify`; the clock hour and random draw of the
quote pick are explicit. -/
def sendMotivationalNotification (hour : Nat) (r : ℚ) (db : DB) :
    List Notif × DB :=
  let users := db.users.filterMap (fun usr =>
    (db.notification_settings.find? (fun ns =>
      ns.user_id == usr.id && ns.motivation_enabled)).map (fun _ => usr.id))
  let notifs :=
    if users.length > 0 then
      let q := getMotivationalQuote hour r
      [{ title := "✨ Daily Inspiration",
         message := "\"" ++ q.1 ++ "\" - " ++ q.2 : Notif }]
    else []
  (notifs, db)

/-! ## Shared lemmas about the handler models -/

lemma toggleTodo_todos (db : DB) (u id : Nat) (now today : Int) (t : Todo)
    (h : findTodo db u id = some t) :
    (toggleTodo db u id now today).2.todos = db.todos.map (fun x =>
      if x.id == id then
        { x with is_completed := !t.is_completed,
                 completed_at := if !t.is_completed then some now else none }
      else x) := by
  simp [toggleTodo, h]

lemma toggleTodo_log (db : DB) (u id : Nat) (now today : Int) (t : Todo)
    (h : findTodo db u id = some t) :
    (toggleTodo db u id now today).2.activity_log =
      if !t.is_completed then
        db.activity_log ++
          [{ user_id := u, activity_type := "todo_completed",
             activity_date := today, details := "Completed: " ++ t.title }]
      else db.activity_log := by
  simp [toggleTodo, h]

lemma findTodo_map_pred (db : DB) (u id : Nat)
    (f : Todo → Todo) (hf : ∀ x, (f x).id = x.id ∧ (f x).user_id = x.user_id) :
    (db.todos.map f).find? (fun x => x.id == id && x.user_id == u)
      = (db.todos.find? (fun x => x.id == id && x.user_id == u)).map f := by
  have hcomp : ((fun x : Todo => x.id == id && x.user_id == u) ∘ f)
      = (fun x : Todo => x.id == id && x.user_id == u) := by
    funext x
    simp [Function.comp, (hf x).1, (hf x).2]
  rw [List.find?_map, hcomp]

lemma findTodo_mem_props (db : DB) (u id : Nat) (t : Todo)
    (h : findTodo db u id = some t) : t ∈ db.todos ∧ t.id = id ∧ t.user_id = u := by
  have hp := List.find?_some (p := fun x : Todo => x.id == id && x.user_id == u)
    (l := db.todos) (a := t) h
  simp only [Bool.and_eq_true, beq_iff_eq] at hp
  exact ⟨List.mem_of_find?_eq_some h, hp.1, hp.2⟩

lemma findTodo_toggle (db : DB) (u id : Nat) (now today : Int) (t : Todo)
    (h : findTodo db u id = some t) :
    findTodo (toggleTodo db u id now today).2 u id =
      some { t with is_completed := !t.is_completed,
                    completed_at := if !t.is_completed then some now else none } := by
  obtain ⟨-, hid, -⟩ := findTodo_mem_props db u id t h
  unfold findTodo
  rw [toggleTodo_todos db u id now today t h]
  rw [findTodo_map_pred]
  · rw [show db.todos.find? (fun x => x.id == id && x.user_id == u) = some t from h]
    simp [hid]
  · intro x
    by_cases hx : x.id == id <;> simp [hx]

lemma streakLoop_spec (db : DB) (u : Nat) (today : Int) :
    ∀ (n fuel : Nat) (d : Int) (acc : Nat), n + 1 ≤ fuel →
    (∀ k : Nat, k < n → hasActivity db u (d - k) = true) →
    hasActivity db u (d - n) = false →
    d - n ≠ today →
    streakLoop db u today d acc fuel = acc + n := by
  intro n
  induction n with
  | zero =>
    intro fuel d acc hfuel _ hstop hne
    obtain ⟨f, rfl⟩ : ∃ f, fuel = f + 1 := ⟨fuel - 1, by omega⟩
    simp only [Int.natCast_zero, Int.sub_zero] at hstop hne
    simp [streakLoop, hstop, hne]
  | succ n ih =>
    intro fuel d acc hfuel hrun hstop hne
    obtain ⟨f, rfl⟩ : ∃ f, fuel = f + 1 := ⟨fuel - 1, by omega⟩
    have h0 : hasActivity db u d = true := by
      have := hrun 0 (by omega)
      simpa using this
    have step : streakLoop db u today d acc (f + 1)
        = streakLoop db u today (d - 1) (acc + 1) f := by
      simp [streakLoop, h0]
    rw [step]
    have := ih f (d - 1) (acc + 1) (by omega)
      (fun k hk => by
        have := hrun (k + 1) (by omega)
        have harith : d - (((k : Nat) + 1 : Nat) : Int) = d - 1 - k := by push_cast; ring
        rwa [harith] at this)
      (by
        have harith : d - (((n : Nat) + 1 : Nat) : Int) = d - 1 - n := by push_cast; ring
        rwa [harith] at hstop)
      (by
        have harith : d - (((n : Nat) + 1 : Nat) : Int) = d - 1 - n := by push_cast; ring
        rwa [harith] at hne)
    rw [this]
    omega

lemma roundPct_cast (c t : Nat) (ht : 0 < t) :
    (roundPct c t : ℤ) = jsRound ((c : ℚ) / t * 100) := by
  unfold roundPct jsRound
  have ht' : ((t : ℚ)) ≠ 0 := Nat.cast_ne_zero.2 (by omega)
  have h1 : (c : ℚ) / t * 100 + 1 / 2 = ((200 * c + t : ℕ) : ℚ) / ((2 * t : ℕ) : ℚ) := by
    push_cast
    field_simp
    ring
  rw [h1]
  have hnn : (0 : ℚ) ≤ ((200 * c + t : ℕ) : ℚ) / ((2 * t : ℕ) : ℚ) := by positivity
  rw [← Int.toNat_of_nonneg (Int.floor_nonneg.2 hnn), Int.floor_toNat,
    Nat.floor_div_eq_div]

lemma progress_after_update (goals : List Goal) (goalId p : Nat) :
    ∀ g ∈ goals.map (fun g => if g.id == goalId then { g with progress := p } else g),
      g.id = goalId → g.progress = p := by
  intro g hg hgid
  obtain ⟨g0, hg0, rfl⟩ := List.mem_map.1 hg
  by_cases h : (g0.id == goalId : Bool)
  · simp [h]
  · rw [if_neg (by simpa using h)] at hgid ⊢
    exact absurd hgid (by simpa using h)

lemma toggleMilestone_ms (db : DB) (u goalId milestoneId : Nat) (now : Int)
    (m : Milestone)
    (hfind : db.goal_milestones.find? (fun x => x.id == milestoneId &&
        db.goals.any (fun g => g.id == x.goal_id && g.user_id == u)) = some m) :
    (toggleMilestone db u goalId milestoneId now).2.goal_milestones
      = db.goal_milestones.map (fun x => if x.id == milestoneId then
          { x with is_completed := !m.is_completed,
                   completed_at := if !m.is_completed then some now else none }
          else x) := by
  simp only [toggleMilestone, hfind]
  rw [apply_ite DB.goal_milestones]
  simp

lemma totalMilestones_set (db : DB) (L : List Milestone) (gid : Nat) :
    totalMilestones { db with goal_milestones := L } gid
      = (L.filter (fun x => x.goal_id == gid)).length := rfl

lemma completedMilestones_set (db : DB) (L : List Milestone) (gid : Nat) :
    completedMilestones { db with goal_milestones := L } gid
      = (L.filter (fun x => x.goal_id == gid && x.is_completed)).length := rfl

lemma toggleMilestone_counts (db : DB) (u goalId milestoneId : Nat) (now : Int)
    (m : Milestone)
    (hfind : db.goal_milestones.find? (fun x => x.id == milestoneId &&
        db.goals.any (fun g => g.id == x.goal_id && g.user_id == u)) = some m) :
    totalMilestones (toggleMilestone db u goalId milestoneId now).2 goalId
        = ((db.goal_milestones.map (fun x => if x.id == milestoneId then
            { x with is_completed := !m.is_completed,
                     completed_at := if !m.is_completed then some now else none }
            else x)).filter (fun x => x.goal_id == goalId)).length
    ∧ completedMilestones (toggleMilestone db u goalId milestoneId now).2 goalId
        = ((db.goal_milestones.map (fun x => if x.id == milestoneId then
            { x with is_completed := !m.is_completed,
                     completed_at := if !m.is_completed then some now else none }
            else x)).filter (fun x => x.goal_id == goalId && x.is_completed)).length := by
  have hms := toggleMilestone_ms db u goalId milestoneId now m hfind
  constructor
  · unfold totalMilestones
    rw [hms]
  · unfold completedMilestones
    rw [hms]

lemma toggleMilestone_goals (db : DB) (u goalId milestoneId : Nat) (now : Int)
    (m : Milestone)
    (hfind : db.goal_milestones.find? (fun x => x.id == milestoneId &&
        db.goals.any (fun g => g.id == x.goal_id && g.user_id == u)) = some m)
    (hpos : 0 < totalMilestones (toggleMilestone db u goalId milestoneId now).2 goalId) :
    (toggleMilestone db u goalId milestoneId now).2.goals
      = db.goals.map (fun g => if g.id == goalId then
          { g with progress := (roundPct
              (completedMilestones (toggleMilestone db u goalId milestoneId now).2 goalId)
              (totalMilestones (toggleMilestone db u goalId milestoneId now).2 goalId)) }
          else g) := by
  obtain ⟨hct, hcc⟩ := toggleMilestone_counts db u goalId milestoneId now m hfind
  rw [hct, hcc]
  rw [hct] at hpos
  simp only [toggleMilestone, hfind, totalMilestones_set, completedMilestones_set]
  rw [if_pos hpos]

/-! ## Claim theorems -/

/-- C1: the current streak returned by `calculateStreak` equals the number
of consecutive days with at least one recorded activity (in the union of
journal entries, completed-todo completion dates, and `activity_log`)
ending today or, when today has no activity yet, ending yesterday; it is
computed by walking backward day by day from today until a day without
activity is found.  `fuel` only needs to dominate the streak length. -/
theorem c1_calculateStreak_consecutive_days (db : DB) (u : Nat) (today : Int)
    (fuel n : Nat) (hfuel : n + 2 ≤ fuel) :
    (hasActivity db u today = true →
      (∀ k : Nat, k < n → hasActivity db u (today - k) = true) →
      hasActivity db u (today - n) = false →
      calculateStreak db u today fuel = n)
    ∧ (hasActivity db u today = false →
      (∀ k : Nat, k < n → hasActivity db u (today - 1 - k) = true) →
      hasActivity db u (today - 1 - n) = false →
      calculateStreak db u today fuel = n) := by
  constructor
  · intro hT hrun hstop
    rcases n with _ | n
    · simp only [Int.natCast_zero, Int.sub_zero] at hstop
      rw [hT] at hstop
      cases hstop
    · unfold calculateStreak
      have := streakLoop_spec db u today (n + 1) fuel today 0 (by omega) hrun hstop
        (by
          intro hcontra
          have : ((n : Int) + 1) = 0 := by omega
          omega)
      omega
  · intro hT hrun hstop
    obtain ⟨f, rfl⟩ : ∃ f, fuel = f + 1 := ⟨fuel - 1, by omega⟩
    unfold calculateStreak
    have step : streakLoop db u today today 0 (f + 1)
        = streakLoop db u today (today - 1) 0 f := by
      simp [streakLoop, hT]
    rw [step]
    have := streakLoop_spec db u today n f (today - 1) 0 (by omega) hrun hstop
      (by intro hcontra; omega)
    omega

/-- C1 witness: activity on days 10, 9, 8 but not 7 gives streak 3 on day
10 (the spec's "activity on days D, D-1, D-2 but not D-3" instance). -/
theorem c1_witness :
    (hasActivity ⟨[], [], [], [], [],
        [⟨1, "login", 10, "a"⟩, ⟨1, "login", 9, "b"⟩, ⟨1, "login", 8, "c"⟩],
        [], 1, 1, 1⟩ 1 10 = true) ∧
    (∀ k : Nat, k < 3 → hasActivity ⟨[], [], [], [], [],
        [⟨1, "login", 10, "a"⟩, ⟨1, "login", 9, "b"⟩, ⟨1, "login", 8, "c"⟩],
        [], 1, 1, 1⟩ 1 (10 - k) = true) ∧
    (hasActivity ⟨[], [], [], [], [],
        [⟨1, "login", 10, "a"⟩, ⟨1, "login", 9, "b"⟩, ⟨1, "login", 8, "c"⟩],
        [], 1, 1, 1⟩ 1 (10 - (3 : Nat)) = false) ∧
    calculateStreak ⟨[], [], [], [], [],
        [⟨1, "login", 10, "a"⟩, ⟨1, "login", 9, "b"⟩, ⟨1, "login", 8, "c"⟩],
        [], 1, 1, 1⟩ 1 10 5 = 3 := by
  refine ⟨by decide, by decide, by decide, ?_⟩
  exact (c1_calculateStreak_consecutive_days _ 1 10 5 3 (by omega)).1
    (by decide) (by decide) (by decide)

/-- C2 counterexample: deleting a milestone changes the goal's milestone
completion ratio but does NOT recompute the stored progress.  With one
completed and one incomplete milestone (stored progress 50), deleting the
incomplete one makes the ratio 1/1, whose rounded percentage is 100, yet
the stored progress stays 50. -/
theorem c2_counterexample :
    ((((deleteMilestone ⟨[], [], [⟨1, 1, "g", none, "short-term", none, 50, "active"⟩],
        [⟨1, 1, "m1", true, some 0⟩, ⟨2, 1, "m2", false, none⟩], [], [], [], 1, 2, 3⟩ 1 2).2).goals.find?
        (fun g => g.id == 1)).map (fun g => g.progress) = some 50)
    ∧ roundPct
        (completedMilestones (deleteMilestone ⟨[], [], [⟨1, 1, "g", none, "short-term", none, 50, "active"⟩],
          [⟨1, 1, "m1", true, some 0⟩, ⟨2, 1, "m2", false, none⟩], [], [], [], 1, 2, 3⟩ 1 2).2 1)
        (totalMilestones (deleteMilestone ⟨[], [], [⟨1, 1, "g", none, "short-term", none, 50, "active"⟩],
          [⟨1, 1, "m1", true, some 0⟩, ⟨2, 1, "m2", false, none⟩], [], [], [], 1, 2, 3⟩ 1 2).2 1) = 100
    ∧ (50 : Nat) ≠ 100 := by
  refine ⟨by decide, by decide, by decide⟩

/-- C2 (amended): after a milestone toggle, the stored progress of the goal
named by the route's `:goalId` parameter equals
`Math.round(completed / total * 100)` over that goal's milestones (after
the toggle); milestone deletion, by contrast, does not recompute the
parent goal's progress. -/
theorem c2_toggle_progress (db : DB) (u goalId milestoneId : Nat) (now : Int)
    (m : Milestone)
    (hfind : db.goal_milestones.find? (fun x => x.id == milestoneId &&
        db.goals.any (fun g => g.id == x.goal_id && g.user_id == u)) = some m)
    (hgid : m.goal_id = goalId) :
    ∀ g ∈ (toggleMilestone db u goalId milestoneId now).2.goals, g.id = goalId →
      (g.progress : ℤ) = jsRound
        (((completedMilestones (toggleMilestone db u goalId milestoneId now).2 goalId : ℚ)
          / (totalMilestones (toggleMilestone db u goalId milestoneId now).2 goalId)) * 100) := by
  have hmem := List.mem_of_find?_eq_some hfind
  obtain ⟨hct, hcc⟩ := toggleMilestone_counts db u goalId milestoneId now m hfind
  have hpos : 0 < totalMilestones (toggleMilestone db u goalId milestoneId now).2 goalId := by
    rw [hct]
    have hfm_mem := List.mem_map_of_mem (fun x : Milestone =>
      if x.id == milestoneId then
        { x with is_completed := !m.is_completed,
                 completed_at := if !m.is_completed then some now else none }
      else x) hmem
    have hfm_pred : (((fun x : Milestone =>
        if x.id == milestoneId then
          { x with is_completed := !m.is_completed,
                   completed_at := if !m.is_completed then some now else none }
        else x) m).goal_id == goalId) = true := by
      by_cases h : (m.id == milestoneId : Bool) <;> simp [h, hgid]
    exact List.length_pos.2 (List.ne_nil_of_mem (List.mem_filter.2 ⟨hfm_mem, hfm_pred⟩))
  have hgoals := toggleMilestone_goals db u goalId milestoneId now m hfind hpos
  intro g hg hgidg
  rw [hgoals] at hg
  rw [progress_after_update db.goals goalId _ g hg hgidg]
  exact roundPct_cast _ _ hpos

/-- C2 witness: toggling one of a goal's two incomplete milestones stores
progress 50 = round(1/2 × 100). -/
theorem c2_witness : ∃ m : Milestone,
    ((⟨[], [], [⟨1, 1, "g", none, "short-term", none, 0, "active"⟩],
      [⟨1, 1, "m1", false, none⟩, ⟨2, 1, "m2", false, none⟩], [], [], [], 1, 2, 3⟩ : DB).goal_milestones.find?
        (fun x => x.id == 1 &&
          (⟨[], [], [⟨1, 1, "g", none, "short-term", none, 0, "active"⟩],
            [⟨1, 1, "m1", false, none⟩, ⟨2, 1, "m2", false, none⟩], [], [], [], 1, 2, 3⟩ : DB).goals.any
            (fun g => g.id == x.goal_id && g.user_id == 1)) = some m)
    ∧ m.goal_id = 1
    ∧ ∀ g ∈ (toggleMilestone ⟨[], [], [⟨1, 1, "g", none, "short-term", none, 0, "active"⟩],
        [⟨1, 1, "m1", false, none⟩, ⟨2, 1, "m2", false, none⟩], [], [], [], 1, 2, 3⟩ 1 1 1 7).2.goals,
        g.id = 1 →
      (g.progress : ℤ) = jsRound
        (((completedMilestones (toggleMilestone ⟨[], [], [⟨1, 1, "g", none, "short-term", none, 0, "active"⟩],
            [⟨1, 1, "m1", false, none⟩, ⟨2, 1, "m2", false, none⟩], [], [], [], 1, 2, 3⟩ 1 1 1 7).2 1 : ℚ)
          / (totalMilestones (toggleMilestone ⟨[], [], [⟨1, 1, "g", none, "short-term", none, 0, "active"⟩],
            [⟨1, 1, "m1", false, none⟩, ⟨2, 1, "m2", false, none⟩], [], [], [], 1, 2, 3⟩ 1 1 1 7).2 1)) * 100) := by
  refine Exists.intro (⟨1, 1, "m1", false, none⟩ : Milestone) ⟨?_, ?_, ?_⟩
  · decide
  · decide
  · exact c2_toggle_progress _ 1 1 1 7 (⟨1, 1, "m1", false, none⟩ : Milestone)
      (by decide) (by decide)

/-- C4: toggling a todo twice restores its original `is_completed` flag
(the toggle is an involution on the completion flag). -/
theorem c4_toggle_involution (db : DB) (u id : Nat) (now1 today1 now2 today2 : Int)
    (t : Todo) (h : findTodo db u id = some t) :
    (findTodo (toggleTodo (toggleTodo db u id now1 today1).2 u id now2 today2).2 u id).map
      (fun x => x.is_completed) = some t.is_completed := by
  have h1 := findTodo_toggle db u id now1 today1 t h
  have h2 := findTodo_toggle _ u id now2 today2 _ h1
  rw [h2]
  simp

/-- C4 witness: a concrete incomplete todo toggled twice is incomplete
again. -/
theorem c4_witness : ∃ t : Todo,
    findTodo ⟨[], [], [], [], [⟨5, 1, "x", none, "medium", 3, false, none⟩], [], [], 1, 1, 1⟩ 1 5 = some t ∧
    (findTodo (toggleTodo (toggleTodo ⟨[], [], [], [], [⟨5, 1, "x", none, "medium", 3, false, none⟩], [], [], 1, 1, 1⟩ 1 5 3 3).2 1 5 4 4).2 1 5).map
      (fun x => x.is_completed) = some t.is_completed := by
  refine ⟨⟨5, 1, "x", none, "medium", 3, false, none⟩, by decide, ?_⟩
  exact c4_toggle_involution _ 1 5 3 3 4 4 _ (by decide)

/-- C9: toggling an incomplete todo to completed and back restores the
todo rows exactly, but the `todo_completed` row inserted into
`activity_log` by the first toggle is kept, so `activity_log`-derived
counts for that day grow by one. -/
theorem c9_roundtrip_keeps_log (db : DB) (u id : Nat) (now1 today1 now2 today2 : Int)
    (t : Todo) (hfind : findTodo db u id = some t)
    (hall : ∀ x ∈ db.todos, x.id = id → x.is_completed = false ∧ x.completed_at = none) :
    ((toggleTodo (toggleTodo db u id now1 today1).2 u id now2 today2).2.todos = db.todos) ∧
    ((toggleTodo (toggleTodo db u id now1 today1).2 u id now2 today2).2.activity_log =
      db.activity_log ++
        [{ user_id := u, activity_type := "todo_completed",
           activity_date := today1, details := "Completed: " ++ t.title }]) ∧
    activityCountOn (toggleTodo (toggleTodo db u id now1 today1).2 u id now2 today2).2 u today1
      = activityCountOn db u today1 + 1 := by
  obtain ⟨hmem, hid, -⟩ := findTodo_mem_props db u id t hfind
  have hinc : t.is_completed = false := (hall t hmem hid).1
  have h1 := findTodo_toggle db u id now1 today1 t hfind
  rw [hinc] at h1
  simp only [Bool.not_false, if_pos] at h1
  have htodos1 := toggleTodo_todos db u id now1 today1 t hfind
  rw [hinc] at htodos1
  simp only [Bool.not_false, if_pos] at htodos1
  have hlog1 := toggleTodo_log db u id now1 today1 t hfind
  rw [hinc] at hlog1
  simp only [Bool.not_false, if_pos] at hlog1
  have htodos2 := toggleTodo_todos _ u id now2 today2 _ h1
  have hlog2 := toggleTodo_log _ u id now2 today2 _ h1
  simp only [Bool.not_true, Bool.false_eq_true, if_neg, ite_false] at htodos2 hlog2
  have hlogfinal : (toggleTodo (toggleTodo db u id now1 today1).2 u id now2 today2).2.activity_log =
      db.activity_log ++
        [{ user_id := u, activity_type := "todo_completed",
           activity_date := today1, details := "Completed: " ++ t.title }] := by
    rw [hlog2, hlog1]
  have htodosfinal : (toggleTodo (toggleTodo db u id now1 today1).2 u id now2 today2).2.todos = db.todos := by
    rw [htodos2, htodos1, List.map_map]
    have hcongr : ∀ x ∈ db.todos,
        ((fun x : Todo =>
          if x.id == id then { x with is_completed := false, completed_at := none } else x) ∘
         (fun x : Todo =>
          if x.id == id then { x with is_completed := true, completed_at := some now1 } else x)) x
        = x := by
      intro x hx
      by_cases hxid : x.id = id
      · have hfields := hall x hx hxid
        cases x with
        | mk xid xu xt xd xp xs xc xca => simp_all
      · simp [Function.comp, hxid]
    rw [List.map_congr_left hcongr]
    simp
  refine ⟨htodosfinal, hlogfinal, ?_⟩
  unfold activityCountOn
  rw [hlogfinal, List.filter_append]
  simp

/-- C9 witness: the round trip on a concrete incomplete todo leaves
exactly one extra `todo_completed` row in `activity_log`. -/
theorem c9_witness : ∃ t : Todo,
    findTodo ⟨[], [], [], [], [⟨5, 1, "read", none, "medium", 3, false, none⟩], [], [], 1, 1, 1⟩ 1 5 = some t ∧
    (∀ x ∈ (⟨[], [], [], [], [⟨5, 1, "read", none, "medium", 3, false, none⟩], [], [], 1, 1, 1⟩ : DB).todos,
      x.id = 5 → x.is_completed = false ∧ x.completed_at = none) ∧
    ((toggleTodo (toggleTodo ⟨[], [], [], [], [⟨5, 1, "read", none, "medium", 3, false, none⟩], [], [], 1, 1, 1⟩ 1 5 3 3).2 1 5 4 4).2.activity_log =
      (⟨[], [], [], [], [⟨5, 1, "read", none, "medium", 3, false, none⟩], [], [], 1, 1, 1⟩ : DB).activity_log ++
        [{ user_id := 1, activity_type := "todo_completed",
           activity_date := 3, details := "Completed: " ++ t.title }]) := by
  refine ⟨⟨5, 1, "read", none, "medium", 3, false, none⟩, by decide, by decide, ?_⟩
  exact (c9_roundtrip_keeps_log _ 1 5 3 3 4 4 _ (by decide) (by decide)).2.1

lemma filter_map_invariant {α : Type} (l : List α) (f : α → α) (p : α → Bool)
    (hp : ∀ x, p (f x) = p x) (hfix : ∀ x, p x = true → f x = x) :
    (l.map f).filter p = l.filter p := by
  rw [List.filter_map]
  have hcomp : (p ∘ f) = p := funext hp
  rw [hcomp]
  have : ∀ x ∈ l.filter p, f x = x := fun x hx =>
    hfix x (List.mem_filter.1 hx).2
  rw [List.map_congr_left this]
  simp

/-- C3 (amended): with a session of user A, every single-row read, update,
or delete handler aimed at a row owned by a different user B responds 404
and leaves the database unchanged; the bulk todo operations (bulk-complete
and reschedule-overdue) respond 200 instead of 404 but still touch only
A's rows, so B's rows are never modified or revealed. -/
theorem c3_ownership_isolation (db : DB) (A B jid gid mid tid : Nat)
    (title : Option String) (content : String) (mood mood_note : Option String)
    (ed : Int) (prog : Option Nat) (sched : Option Int) (now today newDate : Int)
    (ids : List Nat)
    (hAB : A ≠ B)
    (hj : ∀ e ∈ db.journal_entries, e.id = jid → e.user_id = B)
    (hg : ∀ g ∈ db.goals, g.id = gid → g.user_id = B)
    (hm : ∀ m ∈ db.goal_milestones, m.id = mid →
      ∀ g ∈ db.goals, g.id = m.goal_id → g.user_id = B)
    (ht : ∀ t ∈ db.todos, t.id = tid → t.user_id = B)
    (hval : validateJournal title content mood = []) :
    (getJournalEntry db A jid = .error (.notFound "Entry not found"))
    ∧ (updateJournalEntry db A jid title content mood mood_note ed
        = (.error (.notFound "Entry not found"), db))
    ∧ (deleteJournalEntry db A jid = (.error (.notFound "Entry not found"), db))
    ∧ (apiGetGoal (some A) false db gid = .error (.notFound "Goal not found"))
    ∧ (updateGoal db A gid title none none prog none today
        = (.error (.notFound "Goal not found"), db))
    ∧ (deleteGoal db A gid = (.error (.notFound "Goal not found"), db))
    ∧ (toggleMilestone db A gid mid now = (.error (.notFound "Milestone not found"), db))
    ∧ (deleteMilestone db A mid = (.error (.notFound "Milestone not found"), db))
    ∧ (updateTodo db A tid title none none sched = (.error (.notFound "Todo not found"), db))
    ∧ (toggleTodo db A tid now today = (.error (.notFound "Todo not found"), db))
    ∧ (deleteTodo db A tid = (.error (.notFound "Todo not found"), db))
    ∧ ((bulkComplete db A ids now).2.todos.filter (fun t => t.user_id == B)
        = db.todos.filter (fun t => t.user_id == B))
    ∧ ((rescheduleOverdue db A newDate today).2.todos.filter (fun t => t.user_id == B)
        = db.todos.filter (fun t => t.user_id == B)) := by
  have hBA : (B == A) = false := by
    simp only [beq_eq_false_iff_ne, ne_eq]
    exact fun h => hAB h.symm
  have hjn : db.journal_entries.find? (fun e => e.id == jid && e.user_id == A) = none := by
    refine List.find?_eq_none.2 (fun e he hpred => ?_)
    simp only [Bool.and_eq_true, beq_iff_eq] at hpred
    exact hAB ((hpred.2.symm.trans (hj e he hpred.1)))
  have hjfilter : db.journal_entries.filter (fun e => !(e.id == jid && e.user_id == A))
      = db.journal_entries := by
    refine List.filter_eq_self.2 (fun e he => ?_)
    by_cases h1 : e.id = jid
    · have h2 := hj e he h1
      simp [h1, h2, hBA]
    · simp [h1]
  have hgn : db.goals.find? (fun g => g.id == gid && g.user_id == A) = none := by
    refine List.find?_eq_none.2 (fun g hgm hpred => ?_)
    simp only [Bool.and_eq_true, beq_iff_eq] at hpred
    exact hAB ((hpred.2.symm.trans (hg g hgm hpred.1)))
  have hgfilter : db.goals.filter (fun g => !(g.id == gid && g.user_id == A))
      = db.goals := by
    refine List.filter_eq_self.2 (fun g hgm => ?_)
    by_cases h1 : g.id = gid
    · have h2 := hg g hgm h1
      simp [h1, h2, hBA]
    · simp [h1]
  have hmpred : ∀ m ∈ db.goal_milestones,
      (m.id == mid && db.goals.any (fun g => g.id == m.goal_id && g.user_id == A)) = false := by
    intro m hmm
    by_cases h1 : m.id = mid
    · have hany : db.goals.any (fun g => g.id == m.goal_id && g.user_id == A) = false := by
        refine List.any_eq_false.2 (fun g hgm => ?_)
        by_cases h2 : g.id = m.goal_id
        · have h3 := hm m hmm h1 g hgm h2
          simp [h2, h3, hBA]
        · simp [h2]
      simp [hany]
    · simp [h1]
  have hmn : db.goal_milestones.find? (fun m => m.id == mid &&
      db.goals.any (fun g => g.id == m.goal_id && g.user_id == A)) = none := by
    refine List.find?_eq_none.2 (fun m hmm hpred => ?_)
    rw [hmpred m hmm] at hpred
    cases hpred
  have hmfilter : db.goal_milestones.filter (fun m => !(m.id == mid &&
      db.goals.any (fun g => g.id == m.goal_id && g.user_id == A)))
      = db.goal_milestones := by
    refine List.filter_eq_self.2 (fun m hmm => ?_)
    rw [hmpred m hmm]
    rfl
  have htn : db.todos.find? (fun t => t.id == tid && t.user_id == A) = none := by
    refine List.find?_eq_none.2 (fun t htm hpred => ?_)
    simp only [Bool.and_eq_true, beq_iff_eq] at hpred
    exact hAB ((hpred.2.symm.trans (ht t htm hpred.1)))
  have htfilter : db.todos.filter (fun t => !(t.id == tid && t.user_id == A))
      = db.todos := by
    refine List.filter_eq_self.2 (fun t htm => ?_)
    by_cases h1 : t.id = tid
    · have h2 := ht t htm h1
      simp [h1, h2, hBA]
    · simp [h1]
  refine ⟨?_, ?_, ?_, ?_, ?_, ?_, ?_, ?_, ?_, ?_, ?_, ?_, ?_⟩
  · simp [getJournalEntry, hjn]
  · simp [updateJournalEntry, hval, hjn]
  · unfold deleteJournalEntry
    rw [hjfilter]
    simp
  · simp [apiGetGoal, requireAuthGate, hgn]
  · simp [updateGoal, hgn]
  · unfold deleteGoal
    rw [hgfilter]
    simp
  · simp [toggleMilestone, hmn]
  · unfold deleteMilestone
    rw [hmfilter]
    simp
  · simp [updateTodo, findTodo, htn]
  · simp [toggleTodo, findTodo, htn]
  · unfold deleteTodo
    rw [htfilter]
    simp
  · have hfm := filter_map_invariant db.todos
      (fun t => if ids.contains t.id && t.user_id == A then
        { t with is_completed := true, completed_at := some now } else t)
      (fun t => t.user_id == B)
      (fun t => by dsimp only; split <;> rfl)
      (fun t hp => by
        dsimp only
        split
        · next h =>
            exfalso
            simp only [Bool.and_eq_true, beq_iff_eq] at h hp
            exact hAB (h.2.symm.trans hp)
        · rfl)
    by_cases hids : ids = []
    · simp [bulkComplete, hids]
    · simpa [bulkComplete, hids] using hfm
  · have hfm := filter_map_invariant db.todos
      (fun t => if t.user_id == A && t.scheduled_date < today && !t.is_completed then
        { t with scheduled_date := newDate } else t)
      (fun t => t.user_id == B)
      (fun t => by dsimp only; split <;> rfl)
      (fun t hp => by
        dsimp only
        split
        · next h =>
            exfalso
            simp only [Bool.and_eq_true, beq_iff_eq, decide_eq_true_eq] at h hp
            exact hAB (h.1.1.symm.trans hp)
        · rfl)
    simpa [rescheduleOverdue] using hfm

/-- C3 counterexample: POST /api/todos/bulk-complete issued by user 1 with
the id of user 2's todo responds 200 (ok), not 404 as the claim states for
every update request — though the database is left unchanged. -/
theorem c3_counterexample :
    ((bulkComplete ⟨[], [], [], [], [⟨40, 2, "b", none, "medium", 3, false, none⟩],
        [], [], 1, 1, 1⟩ 1 [40] 5).1 = .ok ())
    ∧ ((bulkComplete ⟨[], [], [], [], [⟨40, 2, "b", none, "medium", 3, false, none⟩],
        [], [], 1, 1, 1⟩ 1 [40] 5).2
        = ⟨[], [], [], [], [⟨40, 2, "b", none, "medium", 3, false, none⟩], [], [], 1, 1, 1⟩)
    ∧ ((Except.ok () : Except ApiError Unit) ≠ .error (.notFound "Todo not found")) := by
  refine ⟨rfl, by decide, fun h => Except.noConfusion h⟩

/-- C3 witness: user 1 gets 404 and an unchanged database when reading
user 2's journal entry, toggling a milestone of user 2's goal, and
deleting user 2's todo. -/
theorem c3_witness :
    (getJournalEntry ⟨[], [⟨10, 2, none, "c", none, none, 1⟩],
        [⟨20, 2, "g", none, "short-term", none, 0, "active"⟩], [⟨30, 20, "m", false, none⟩],
        [⟨40, 2, "t", none, "medium", 3, false, none⟩], [], [], 1, 1, 1⟩ 1 10
      = .error (.notFound "Entry not found"))
    ∧ (toggleMilestone ⟨[], [⟨10, 2, none, "c", none, none, 1⟩],
        [⟨20, 2, "g", none, "short-term", none, 0, "active"⟩], [⟨30, 20, "m", false, none⟩],
        [⟨40, 2, "t", none, "medium", 3, false, none⟩], [], [], 1, 1, 1⟩ 1 20 30 5
      = (.error (.notFound "Milestone not found"),
         ⟨[], [⟨10, 2, none, "c", none, none, 1⟩],
          [⟨20, 2, "g", none, "short-term", none, 0, "active"⟩], [⟨30, 20, "m", false, none⟩],
          [⟨40, 2, "t", none, "medium", 3, false, none⟩], [], [], 1, 1, 1⟩))
    ∧ (deleteTodo ⟨[], [⟨10, 2, none, "c", none, none, 1⟩],
        [⟨20, 2, "g", none, "short-term", none, 0, "active"⟩], [⟨30, 20, "m", false, none⟩],
        [⟨40, 2, "t", none, "medium", 3, false, none⟩], [], [], 1, 1, 1⟩ 1 40
      = (.error (.notFound "Todo not found"),
         ⟨[], [⟨10, 2, none, "c", none, none, 1⟩],
          [⟨20, 2, "g", none, "short-term", none, 0, "active"⟩], [⟨30, 20, "m", false, none⟩],
          [⟨40, 2, "t", none, "medium", 3, false, none⟩], [], [], 1, 1, 1⟩)) := by
  have h := c3_ownership_isolation
    ⟨[], [⟨10, 2, none, "c", none, none, 1⟩],
     [⟨20, 2, "g", none, "short-term", none, 0, "active"⟩], [⟨30, 20, "m", false, none⟩],
     [⟨40, 2, "t", none, "medium", 3, false, none⟩], [], [], 1, 1, 1⟩
    1 2 10 20 30 40 none "c" none none 1 none none 5 6 7 [40]
    (by decide) (by decide) (by decide) (by decide) (by decide) (by decide)
  exact ⟨h.1, h.2.2.2.2.2.2.1, h.2.2.2.2.2.2.2.2.2.2.1⟩

/-- C5: the uniform error pattern on the modelled route pipeline (the
`requireAuth` middleware and the goals routes the claim cites): no session
gives 401; a failing validator chain gives 400 carrying the field-level
messages; a failing ownership/existence lookup gives 404; a thrown
database error gives 500 with a generic message. -/
theorem c5_error_statuses (db : DB) (u gid : Nat) (title goal_type : String)
    (description : Option String) (target_date : Option Int) (ms : List String) :
    (apiGetGoal none false db gid = .error .unauthorized
      ∧ (apiCreateGoal none false db title description goal_type target_date ms).1
          = .error .unauthorized
      ∧ ApiError.unauthorized.status = 401)
    ∧ (validateCreateGoal title goal_type ≠ [] →
        (apiCreateGoal (some u) false db title description goal_type target_date ms)
          = (.error (.validation (validateCreateGoal title goal_type)), db)
        ∧ (ApiError.validation (validateCreateGoal title goal_type)).status = 400)
    ∧ ((∀ g ∈ db.goals, g.id = gid → g.user_id ≠ u) →
        apiGetGoal (some u) false db gid = .error (.notFound "Goal not found")
        ∧ (ApiError.notFound "Goal not found").status = 404)
    ∧ (apiGetGoal (some u) true db gid = .error (.server "Failed to fetch goal")
        ∧ (ApiError.server "Failed to fetch goal").status = 500) := by
  refine ⟨⟨rfl, rfl, rfl⟩, ?_, ?_, ⟨rfl, rfl⟩⟩
  · intro hval
    constructor
    · simp [apiCreateGoal, requireAuthGate, hval]
    · rfl
  · intro hown
    have hn : db.goals.find? (fun g => g.id == gid && g.user_id == u) = none := by
      refine List.find?_eq_none.2 (fun g hg hpred => ?_)
      simp only [Bool.and_eq_true, beq_iff_eq] at hpred
      exact hown g hg hpred.1 hpred.2
    constructor
    · simp [apiGetGoal, requireAuthGate, hn]
    · rfl

/-- C5 witness: the four statuses at concrete inputs (no session; empty
title and bad goal type; unknown goal id; database failure). -/
theorem c5_witness :
    (apiGetGoal none false ⟨[], [], [], [], [], [], [], 1, 1, 1⟩ 7 = .error .unauthorized)
    ∧ (validateCreateGoal "" "daily" ≠ [])
    ∧ ((apiCreateGoal (some 1) false ⟨[], [], [], [], [], [], [], 1, 1, 1⟩ "" none "daily" none [])
        = (.error (.validation (validateCreateGoal "" "daily")),
           ⟨[], [], [], [], [], [], [], 1, 1, 1⟩))
    ∧ ((∀ g ∈ (⟨[], [], [], [], [], [], [], 1, 1, 1⟩ : DB).goals, g.id = 7 → g.user_id ≠ 1))
    ∧ (apiGetGoal (some 1) false ⟨[], [], [], [], [], [], [], 1, 1, 1⟩ 7
        = .error (.notFound "Goal not found"))
    ∧ (apiGetGoal (some 1) true ⟨[], [], [], [], [], [], [], 1, 1, 1⟩ 7
        = .error (.server "Failed to fetch goal")) := by
  have h := c5_error_statuses ⟨[], [], [], [], [], [], [], 1, 1, 1⟩ 1 7 "" "daily" none none []
  refine ⟨h.1.1, by decide, (h.2.1 (by decide)).1, by decide,
    (h.2.2.1 (by decide)).1, h.2.2.2.1⟩

/-- C6: creating a journal entry with empty content is rejected with a 400
validation response carrying "Content is required" and an unchanged
database; with valid fields (in particular non-empty content) it succeeds,
returns the fresh row id, and the new entry appears in the user's
subsequent journal listing. -/
theorem c6_journal_create (db : DB) (u : Nat) (title : Option String)
    (content : String) (mood mood_note : Option String) (ed : Option Int)
    (today : Int) :
    (content = "" →
      ∃ msgs, createJournalEntry db u title content mood mood_note ed today
          = (.error (.validation msgs), db)
        ∧ "Content is required" ∈ msgs
        ∧ (ApiError.validation msgs).status = 400)
    ∧ (validateJournal title content mood = [] →
      (createJournalEntry db u title content mood mood_note ed today).1
          = .ok db.next_journal_id
      ∧ ∃ e ∈ listJournal (createJournalEntry db u title content mood mood_note ed today).2
            u none none none none,
          e.id = db.next_journal_id ∧ e.content = content) := by
  constructor
  · intro hc
    have hmem : "Content is required" ∈ validateJournal title content mood := by
      unfold validateJournal
      rw [hc]
      simp
    refine ⟨validateJournal title content mood, ?_, hmem, rfl⟩
    unfold createJournalEntry
    rw [if_pos (List.ne_nil_of_mem hmem)]
  · intro hval
    have hne : ¬(validateJournal title content mood ≠ []) := by simp [hval]
    constructor
    · unfold createJournalEntry
      rw [if_neg hne]
    · refine ⟨⟨db.next_journal_id, u, orElseStr title none, content,
        orElseStr mood none, orElseStr mood_note none, ed.getD today⟩, ?_, rfl, rfl⟩
      unfold createJournalEntry listJournal
      rw [if_neg hne]
      refine List.mem_filter.2 ⟨?_, by simp⟩
      simp

/-- C6 witness: empty content is rejected, and creating "hello" returns id
4 and shows up in the listing. -/
theorem c6_witness :
    (∃ msgs, createJournalEntry ⟨[], [], [], [], [], [], [], 4, 1, 1⟩ 1 none "" none none none 9
        = (.error (.validation msgs), ⟨[], [], [], [], [], [], [], 4, 1, 1⟩)
      ∧ "Content is required" ∈ msgs
      ∧ (ApiError.validation msgs).status = 400)
    ∧ (validateJournal none "hello" none = [])
    ∧ ((createJournalEntry ⟨[], [], [], [], [], [], [], 4, 1, 1⟩ 1 none "hello" none none none 9).1
        = .ok 4)
    ∧ (∃ e ∈ listJournal (createJournalEntry ⟨[], [], [], [], [], [], [], 4, 1, 1⟩ 1 none "hello" none none none 9).2
          1 none none none none, e.id = 4 ∧ e.content = "hello") := by
  have h1 := (c6_journal_create ⟨[], [], [], [], [], [], [], 4, 1, 1⟩ 1 none "" none none none 9).1 rfl
  have h2 := (c6_journal_create ⟨[], [], [], [], [], [], [], 4, 1, 1⟩ 1 none "hello" none none none 9).2 (by decide)
  exact ⟨h1, by decide, h2.1, h2.2⟩

/-- C7: one firing of the notification poller (`checkAndNotify` plus
`sendMotivationalNotification`) only reads the database: the database
value it passes on is the one it received, for every database state. -/
theorem c7_poller_readonly (db : DB) (today : Int) (hour : Nat) (r : ℚ) :
    (checkAndNotify today db).2 = db ∧ (sendMotivationalNotification hour r db).2 = db :=
  ⟨rfl, rfl⟩

/-- C8 counterexample: the fallback quote selection is NOT deterministic —
at the same hour (18), two `Math.random()` draws (0 and 9/10) select
different quotes, so two runs of the same request can differ. -/
theorem c8_counterexample :
    getMotivationalQuote 18 0 ≠ getMotivationalQuote 18 (9 / 10) := by
  have hif : (if (quoteCategory 18).length > 0 then quoteCategory 18 else quotes)
      = quoteCategory 18 := by decide
  have hlen : (quoteCategory 18).length = 14 := by decide
  have h1 : randIndex 0 14 = 0 := by
    have h : ⌊(0 : ℚ) * ((14 : Nat) : ℚ)⌋ = 0 := by norm_num
    unfold randIndex
    rw [h]
    rfl
  have h2 : randIndex (9/10) 14 = 12 := by
    have h : ⌊(9/10 : ℚ) * ((14 : Nat) : ℚ)⌋ = 12 := by norm_num
    unfold randIndex
    rw [h]
    rfl
  simp only [getMotivationalQuote]
  rw [hif, hlen, h1, h2]
  decide

/-- C8 (amended): the fallback draws from the fixed hardcoded list — every
quote the fallback returns, for any hour and any random draw in `[0,1)`,
is an element of the hardcoded `quotes` list — but which element is
selected is randomized, not deterministic. -/
theorem c8_quote_from_fixed_list (hour : Nat) (r : ℚ) (h0 : 0 ≤ r) (h1 : r < 1) :
    getMotivationalQuote hour r ∈ quotes := by
  unfold getMotivationalQuote
  have hsub : ∀ q ∈ (if (quoteCategory hour).length > 0 then quoteCategory hour else quotes),
      q ∈ quotes := by
    intro q hq
    split at hq
    · unfold quoteCategory at hq
      split_ifs at hq <;> exact (List.mem_filter.1 hq).1
    · exact hq
  have hlen : 0 < (if (quoteCategory hour).length > 0 then quoteCategory hour else quotes).length := by
    split
    · omega
    · decide
  have hidx : randIndex r (if (quoteCategory hour).length > 0 then quoteCategory hour
      else quotes).length < (if (quoteCategory hour).length > 0 then quoteCategory hour
      else quotes).length := by
    set n := (if (quoteCategory hour).length > 0 then quoteCategory hour else quotes).length
    unfold randIndex
    have hmul : r * (n : ℚ) < (n : ℚ) := by
      calc r * (n : ℚ) < 1 * (n : ℚ) := by
            apply mul_lt_mul_of_pos_right h1
            exact_mod_cast hlen
        _ = (n : ℚ) := one_mul _
    have hfloor : ⌊r * (n : ℚ)⌋ < (n : ℤ) := Int.floor_lt.2 (by exact_mod_cast hmul)
    have hnn : 0 ≤ ⌊r * (n : ℚ)⌋ := Int.floor_nonneg.2 (by positivity)
    exact (Int.toNat_lt hnn).2 hfloor
  rw [List.getD_eq_getElem _ _ hidx]
  exact hsub _ (List.getElem_mem hidx)

/-- C8 witness: the morning quote at draw 0 is in the hardcoded list. -/
theorem c8_witness : (0 : ℚ) ≤ 0 ∧ (0 : ℚ) < 1 ∧ getMotivationalQuote 10 0 ∈ quotes :=
  ⟨le_refl 0, by norm_num, c8_quote_from_fixed_list 10 0 (le_refl 0) (by norm_num)⟩

lemma hmLookup_bumpDate (m : List (Int × Nat)) (dp : Int) (c : Nat) (d : Int) :
    hmLookup (bumpDate m dp c) d = hmLookup m d + (if dp = d then c else 0) := by
  induction m with
  | nil =>
    simp only [bumpDate, hmLookup]
    split_ifs with h
    · subst h; simp [hmLookup]
    · simp [hmLookup, h]
  | cons p rest ih =>
    by_cases hp : p.1 = dp
    · simp only [bumpDate, if_pos hp, hmLookup]
      by_cases hd : dp = d
      · rw [hp, hd]
        simp
      · have : ¬(p.1 = d) := by rw [hp]; exact hd
        simp [this, hd]
    · simp only [bumpDate, if_neg hp, hmLookup]
      by_cases hpd : p.1 = d
      · have : ¬(dp = d) := fun h => hp (by rw [h, hpd])
        simp [hpd, this]
      · simp [hpd, ih]

lemma hmLookup_foldl (l : List (Int × Nat)) (init : List (Int × Nat)) (d : Int) :
    hmLookup (l.foldl (fun m p => bumpDate m p.1 p.2) init) d
      = hmLookup init d + ((l.filter (fun p => p.1 == d)).map (fun p => p.2)).sum := by
  induction l generalizing init with
  | nil => simp
  | cons p rest ih =>
    simp only [List.foldl_cons]
    rw [ih, hmLookup_bumpDate]
    by_cases hp : p.1 = d
    · simp [List.filter_cons, hp]
      omega
    · simp [List.filter_cons, hp]

lemma sum_groupCounts (dates : List Int) (d : Int) :
    (((groupCounts dates).filter (fun p => p.1 == d)).map (fun p => p.2)).sum
      = (dates.filter (fun x => x == d)).length := by
  unfold groupCounts
  rw [List.filter_map, List.map_map]
  have hcomp : ((fun p : Int × Nat => p.1 == d) ∘
      (fun x => (x, (dates.filter (fun y => y == x)).length))) = (fun x => x == d) := by
    funext x
    rfl
  rw [hcomp]
  by_cases hd : d ∈ dates
  · have hdd : d ∈ dates.dedup := List.mem_dedup.2 hd
    have hone : dates.dedup.count d = 1 := List.count_eq_one_of_mem (List.nodup_dedup dates) hdd
    have hfil : dates.dedup.filter (fun x => x == d) = [d] := by
      have := List.filter_beq dates.dedup d
      rw [this, hone]
      rfl
    rw [hfil]
    simp
  · have hfil : dates.dedup.filter (fun x => x == d) = [] := by
      refine List.filter_eq_nil_iff.2 (fun x hx hbeq => ?_)
      simp only [beq_iff_eq] at hbeq
      exact hd (List.mem_dedup.1 (hbeq ▸ hx))
    have hfil2 : dates.filter (fun x => x == d) = [] := by
      refine List.filter_eq_nil_iff.2 (fun x hx hbeq => ?_)
      simp only [beq_iff_eq] at hbeq
      exact hd (hbeq ▸ hx)
    rw [hfil, hfil2]
    rfl

lemma count_activityLogDates (db : DB) (u : Nat) (inYear : Int → Bool) (d : Int)
    (hy : inYear d = true) :
    ((activityLogDates db u inYear).filter (fun x => x == d)).length
      = activityCountOn db u d := by
  unfold activityLogDates activityCountOn
  rw [List.filter_map, List.length_map, List.filter_filter]
  apply congrArg List.length
  apply List.filter_congr
  intro a _
  by_cases h1 : a.activity_date = d
  · simp [h1, hy]
  · have hb : (a.activity_date == d) = false := beq_eq_false_iff_ne.2 h1
    simp [hb]

lemma count_journalDates (db : DB) (u : Nat) (inYear : Int → Bool) (d : Int)
    (hy : inYear d = true) :
    ((journalDates db u inYear).filter (fun x => x == d)).length
      = journalCountOn db u d := by
  unfold journalDates journalCountOn
  rw [List.filter_map, List.length_map, List.filter_filter]
  apply congrArg List.length
  apply List.filter_congr
  intro j _
  by_cases h1 : j.entry_date = d
  · simp [h1, hy]
  · have hb : (j.entry_date == d) = false := beq_eq_false_iff_ne.2 h1
    simp [hb]

lemma count_completedTodoDates (db : DB) (u : Nat) (inYear : Int → Bool) (d : Int)
    (hy : inYear d = true) :
    ((completedTodoDates db u inYear).filter (fun x => x == d)).length
      = todoCompletedCountOn db u d := by
  unfold completedTodoDates todoCompletedCountOn
  rw [List.filter_map, List.length_map, List.filter_filter]
  apply congrArg List.length
  apply List.filter_congr
  intro t _
  cases hca : t.completed_at with
  | none => simp [hca]
  | some dd =>
    by_cases h1 : dd = d
    · subst h1
      simp [hca, hy]
    · have hb : (dd == d) = false := beq_eq_false_iff_ne.2 h1
      simp [hca, hb, h1]

lemma heatmapLookup_eq_sum (db : DB) (u : Nat) (inYear : Int → Bool) (d : Int)
    (hy : inYear d = true) :
    hmLookup (heatmapData db u inYear) d
      = activityCountOn db u d + todoCompletedCountOn db u d + journalCountOn db u d := by
  unfold heatmapData
  rw [hmLookup_foldl]
  simp only [hmLookup, List.filter_append, List.map_append, List.sum_append]
  rw [sum_groupCounts, sum_groupCounts, sum_groupCounts]
  rw [count_activityLogDates db u inYear d hy, count_completedTodoDates db u inYear d hy,
    count_journalDates db u inYear d hy]
  omega

/-- C10 (amended): the heatmap count for a day (in the requested year)
equals the sum of that user's `activity_log` rows, completed-todo
completions, and journal entries dated that day; and a journal entry
created with the DEFAULT entry date (today) raises today's count by 2
(one `journal_entries` row plus one `activity_log` row).  A backdated
entry instead contributes 1 to its entry date, because its `activity_log`
row is dated with the creation day, not the entry date. -/
theorem c10_heatmap (db : DB) (u : Nat) (inYear : Int → Bool) (d : Int)
    (title : Option String) (content : String) (mood mood_note : Option String)
    (today : Int) :
    (inYear d = true →
      hmLookup (heatmapData db u inYear) d
        = activityCountOn db u d + todoCompletedCountOn db u d + journalCountOn db u d)
    ∧ (validateJournal title content mood = [] → inYear today = true →
      hmLookup (heatmapData
          (createJournalEntry db u title content mood mood_note none today).2 u inYear) today
        = hmLookup (heatmapData db u inYear) today + 2) := by
  constructor
  · exact heatmapLookup_eq_sum db u inYear d
  · intro hval hy
    have hne : ¬(validateJournal title content mood ≠ []) := by simp [hval]
    have hproj : (createJournalEntry db u title content mood mood_note none today).2
        = { db with
            journal_entries := db.journal_entries ++
              [⟨db.next_journal_id, u, orElseStr title none, content,
                orElseStr mood none, orElseStr mood_note none, today⟩],
            activity_log := db.activity_log ++
              [⟨u, "journal", today,
                "Created journal entry: " ++ ((orElseStr title none).getD "Untitled")⟩],
            next_journal_id := db.next_journal_id + 1 } := by
      unfold createJournalEntry
      rw [if_neg hne]
      rfl
    rw [heatmapLookup_eq_sum _ u inYear today hy, heatmapLookup_eq_sum db u inYear today hy,
      hproj]
    have hact : activityCountOn { db with
            journal_entries := db.journal_entries ++
              [⟨db.next_journal_id, u, orElseStr title none, content,
                orElseStr mood none, orElseStr mood_note none, today⟩],
            activity_log := db.activity_log ++
              [⟨u, "journal", today,
                "Created journal entry: " ++ ((orElseStr title none).getD "Untitled")⟩],
            next_journal_id := db.next_journal_id + 1 } u today
        = activityCountOn db u today + 1 := by
      unfold activityCountOn
      simp [List.filter_append]
    have hjour : journalCountOn { db with
            journal_entries := db.journal_entries ++
              [⟨db.next_journal_id, u, orElseStr title none, content,
                orElseStr mood none, orElseStr mood_note none, today⟩],
            activity_log := db.activity_log ++
              [⟨u, "journal", today,
                "Created journal entry: " ++ ((orElseStr title none).getD "Untitled")⟩],
            next_journal_id := db.next_journal_id + 1 } u today
        = journalCountOn db u today + 1 := by
      unfold journalCountOn
      simp [List.filter_append]
    have htodo : todoCompletedCountOn { db with
            journal_entries := db.journal_entries ++
              [⟨db.next_journal_id, u, orElseStr title none, content,
                orElseStr mood none, orElseStr mood_note none, today⟩],
            activity_log := db.activity_log ++
              [⟨u, "journal", today,
                "Created journal entry: " ++ ((orElseStr title none).getD "Untitled")⟩],
            next_journal_id := db.next_journal_id + 1 } u today
        = todoCompletedCountOn db u today := rfl
    rw [hact, hjour, htodo]
    omega

/-- C10 counterexample: an entry created on day 10 but dated day 5 gives
day 5 a heatmap count of 1, not the claimed 2 (the `activity_log` row
lands on day 10). -/
theorem c10_counterexample :
    (hmLookup (heatmapData
        (createJournalEntry ⟨[], [], [], [], [], [], [], 1, 1, 1⟩ 1 none "hi" none none (some 5) 10).2
        1 (fun _ => true)) 5 = 1)
    ∧ (hmLookup (heatmapData
        (createJournalEntry ⟨[], [], [], [], [], [], [], 1, 1, 1⟩ 1 none "hi" none none (some 5) 10).2
        1 (fun _ => true)) 10 = 1)
    ∧ (1 : Nat) ≠ 2 := by
  refine ⟨by decide, by decide, by decide⟩

/-- C10 witness: on a concrete database the day-3 heatmap count is the sum
of the three sources, and creating an entry with the default date adds 2
to day 3 (creation day 3). -/
theorem c10_witness :
    ((fun _ : Int => true) 3 = true)
    ∧ (hmLookup (heatmapData ⟨[], [⟨1, 1, none, "c", none, none, 3⟩], [], [],
        [⟨2, 1, "t", none, "medium", 3, true, some 3⟩],
        [⟨1, "journal", 3, "x"⟩], [], 2, 1, 1⟩ 1 (fun _ => true)) 3
        = activityCountOn ⟨[], [⟨1, 1, none, "c", none, none, 3⟩], [], [],
            [⟨2, 1, "t", none, "medium", 3, true, some 3⟩],
            [⟨1, "journal", 3, "x"⟩], [], 2, 1, 1⟩ 1 3
          + todoCompletedCountOn ⟨[], [⟨1, 1, none, "c", none, none, 3⟩], [], [],
            [⟨2, 1, "t", none, "medium", 3, true, some 3⟩],
            [⟨1, "journal", 3, "x"⟩], [], 2, 1, 1⟩ 1 3
          + journalCountOn ⟨[], [⟨1, 1, none, "c", none, none, 3⟩], [], [],
            [⟨2, 1, "t", none, "medium", 3, true, some 3⟩],
            [⟨1, "journal", 3, "x"⟩], [], 2, 1, 1⟩ 1 3)
    ∧ (validateJournal none "hello" none = [])
    ∧ (hmLookup (heatmapData
        (createJournalEntry ⟨[], [⟨1, 1, none, "c", none, none, 3⟩], [], [],
          [⟨2, 1, "t", none, "medium", 3, true, some 3⟩],
          [⟨1, "journal", 3, "x"⟩], [], 2, 1, 1⟩ 1 none "hello" none none none 3).2 1
          (fun _ => true)) 3
        = hmLookup (heatmapData ⟨[], [⟨1, 1, none, "c", none, none, 3⟩], [], [],
          [⟨2, 1, "t", none, "medium", 3, true, some 3⟩],
          [⟨1, "journal", 3, "x"⟩], [], 2, 1, 1⟩ 1 (fun _ => true)) 3 + 2) := by
  have h := c10_heatmap ⟨[], [⟨1, 1, none, "c", none, none, 3⟩], [], [],
    [⟨2, 1, "t", none, "medium", 3, true, some 3⟩],
    [⟨1, "journal", 3, "x"⟩], [], 2, 1, 1⟩ 1 (fun _ => true) 3 none "hello" none none 3
  exact ⟨rfl, h.1 rfl, by decide, h.2 (by decide) rfl⟩
